import Mathlib

/-!
Verification of the diorama-js ray-casting renderer.

The definitions below are a shallow embedding of the renderer found in
`src/renderer/raytracing.js` (the worker-hosted engine: `setCanvas`,
`setScene`, `setActions`, `animate`, `update`, `paint`, `computePixelColor`,
`computePixelIntensity`, `paintPixel`) together with the `Diorama` class
variants where a claim cites them (`Diorama.loadScene`, which pushes onto the
existing scene, and `Diorama.setAction`/`setActions` scheduling).  JS numbers
are modelled as real numbers; `Math.sqrt` is `Real.sqrt`; `undefined`
sentinel variables (`tClosest`, `animationRequestId`) are modelled with
`Option`/`Bool`, keeping the JS falsiness of `0` where the source tests
truthiness (`!tClosest`, `if (tClosest)`).
-/

/-- `Vector3` from `math.mjs` (named `Vec3` here since Mathlib reserves the source name): a floating-point triple. -/
structure Vec3 where
  x : ℝ
  y : ℝ
  z : ℝ

/-- `Vec3.difference(a, b)` returns `a - b` componentwise. -/
def Vec3.difference (a b : Vec3) : Vec3 :=
  ⟨a.x - b.x, a.y - b.y, a.z - b.z⟩

/-- `Vec3.dot(a, b)` returns the scalar product. -/
def Vec3.dot (a b : Vec3) : ℝ :=
  a.x * b.x + a.y * b.y + a.z * b.z

/-- `v.norm()` returns the Euclidean norm `sqrt(dot(v, v))`. -/
noncomputable def Vec3.norm (v : Vec3) : ℝ :=
  Real.sqrt (Vec3.dot v v)

/-- A sphere of the scene: center, radius, base color (r, g, b). -/
structure Sphere where
  center : Vec3
  radius : ℝ
  color : ℝ × ℝ × ℝ

/-- The three light variants handled by the shader switch. -/
inductive Light where
  | ambient (intensity : ℝ)
  | directional (intensity : ℝ) (direction : Vec3)
  | point (intensity : ℝ) (position : Vec3)

/-- The intensity payload common to every light variant. -/
def lightIntensity : Light → ℝ
  | .ambient i => i
  | .directional i _ => i
  | .point i _ => i

/-- One iteration of the sphere loop in `computePixelColor`
(`raytracing.js` lines 139-157): quadratic coefficients, the
`discriminant >= 0` guard, both roots, and the candidate test
`(t1 > tMin && t1 < tMax) || (t2 > tMin && t2 < tMax)` followed by
`t = Math.min(t1, t2)` and the update guarded by `!tClosest || t < tClosest`
(JS falsiness: `!tClosest` is true when `tClosest` is unset or `0`). -/
noncomputable def scanSphere (camera D : Vec3) (tMin tMax : ℝ)
    (acc : Option (ℝ × Sphere)) (sphere : Sphere) : Option (ℝ × Sphere) :=
  let oc := Vec3.difference camera sphere.center
  let a := Vec3.dot D D
  let b := 2 * Vec3.dot oc D
  let c := Vec3.dot oc oc - sphere.radius * sphere.radius
  let disc := b * b - 4 * a * c
  if disc ≥ 0 then
    let d := Real.sqrt disc
    let t1 := (-b + d) / (2 * a)
    let t2 := (-b - d) / (2 * a)
    if (t1 > tMin ∧ t1 < tMax) ∨ (t2 > tMin ∧ t2 < tMax) then
      let t := min t1 t2
      match acc with
      | none => some (t, sphere)
      | some (tC, sC) => if tC = 0 ∨ t < tC then some (t, sphere) else some (tC, sC)
    else acc
  else acc

/-- The whole sphere loop of `computePixelColor`: fold `scanSphere` over the
scene's shapes in scan order, starting from unset `tClosest`. -/
noncomputable def intersectClosest (camera D : Vec3) (tMin tMax : ℝ)
    (shapes : List Sphere) : Option (ℝ × Sphere) :=
  shapes.foldl (scanSphere camera D tMin tMax) none

/-- One iteration of the light loop in `computePixelIntensity`
(`raytracing.js` lines 172-184): ambient adds the intensity, directional and
point lights add `intensity * max(0, dot(N, L) / (|N| * |L|))`. -/
noncomputable def lightContrib (P N : Vec3) : Light → ℝ
  | .ambient i => i
  | .directional i dir =>
      i * max 0 (Vec3.dot N dir / (Vec3.norm N * Vec3.norm dir))
  | .point i pos =>
      let L := Vec3.difference pos P
      i * max 0 (Vec3.dot N L / (Vec3.norm N * Vec3.norm L))

/-- `computePixelIntensity(P, N)` (`raytracing.js` lines 170-186): the sum of
the per-light contributions, accumulated in loop order from `i = 0`.  The
returned value is not clamped. -/
noncomputable def computePixelIntensity (lights : List Light) (P N : Vec3) : ℝ :=
  lights.foldl (fun i l => i + lightContrib P N l) 0

/-- `computePixelColor(D, tMin, tMax)` (`raytracing.js` lines 136-168): run
the closest-hit scan; on a hit (`if (tClosest)`, JS-truthy, so `t = 0` falls
through to the background) compute the hit point, the unit normal, the light
intensity, and scale the base color by it; otherwise return the background
color `(255, 255, 255)`. -/
noncomputable def computePixelColor (camera : Vec3) (shapes : List Sphere)
    (lights : List Light) (D : Vec3) (tMin tMax : ℝ) : ℝ × ℝ × ℝ :=
  match intersectClosest camera D tMin tMax shapes with
  | some (t, sphere) =>
      if t ≠ 0 then
        let P : Vec3 :=
          ⟨camera.x + t * D.x, camera.y + t * D.y, camera.z + t * D.z⟩
        let CP := Vec3.difference P sphere.center
        let len := Vec3.norm CP
        let N : Vec3 := ⟨CP.x / len, CP.y / len, CP.z / len⟩
        let i := computePixelIntensity lights P N
        (sphere.color.1 * i, sphere.color.2.1 * i, sphere.color.2.2 * i)
      else (255, 255, 255)
  | none => (255, 255, 255)

/-- The four directional action flags (`actions` in `raytracing.js`). -/
structure Actions where
  up : Bool
  right : Bool
  down : Bool
  left : Bool

/-- A partial action map as delivered to `setActions` and merged with
`Object.assign`: each present field overwrites the flag. -/
structure ActionsPatch where
  up : Option Bool
  right : Option Bool
  down : Option Bool
  left : Option Bool

/-- `Object.assign(actions, a)`: fields present in the patch overwrite. -/
def applyPatch (a : Actions) (p : ActionsPatch) : Actions :=
  ⟨p.up.getD a.up, p.right.getD a.right, p.down.getD a.down, p.left.getD a.left⟩

/-- `Object.values(actions).every(a => a === false)`. -/
def allInactive (a : Actions) : Bool :=
  !a.up && !a.right && !a.down && !a.left

/-- The renderer module state (the globals of `raytracing.js`): framebuffer
geometry, viewport scales, camera, scene, animation bookkeeping, action flags
and the RGBA draw buffer (a byte offset to value map).  `animationRequestId`
keeps only its JS truthiness (a callback is scheduled or not). -/
structure RenderState where
  width : ℤ
  height : ℤ
  vWidth : ℝ
  vHeight : ℝ
  xMax : ℤ
  yMax : ℤ
  xScale : ℝ
  yScale : ℝ
  zDistance : ℝ
  camera : Vec3
  shapes : List Sphere
  lights : List Light
  animationRequestId : Bool
  previousTimeStamp : ℝ
  actions : Actions
  drawBuffer : ℤ → ℝ

/-- The grid mapping of `paintPixel`: `x = xMax + cx`, `y = yMax - cy`. -/
def mapToGrid (xMax yMax cx cy : ℤ) : ℤ × ℤ :=
  (xMax + cx, yMax - cy)

/-- The defensive bounds check of `paintPixel`:
`(x >= 0 && x < width) && (y >= 0 && y < height)`. -/
def inBounds (width height : ℤ) (p : ℤ × ℤ) : Prop :=
  0 ≤ p.1 ∧ p.1 < width ∧ 0 ≤ p.2 ∧ p.2 < height

instance (width height : ℤ) (p : ℤ × ℤ) : Decidable (inBounds width height p) := by
  unfold inBounds; infer_instance

/-- `paintPixel(cx, cy, [r, g, b])` (`raytracing.js` lines 188-199): map the
viewport coordinate to the canvas grid, and when it passes the bounds check
write `r, g, b, 255` at byte offset `(y * width + x) * 4`; otherwise the
write is silently skipped. -/
def paintPixel (s : RenderState) (cx cy : ℤ) (col : ℝ × ℝ × ℝ) : RenderState :=
  let p := mapToGrid s.xMax s.yMax cx cy
  if inBounds s.width s.height p then
    let off := (p.2 * s.width + p.1) * 4
    { s with drawBuffer := fun i =>
        if i = off then col.1
        else if i = off + 1 then col.2.1
        else if i = off + 2 then col.2.2
        else if i = off + 3 then 255
        else s.drawBuffer i }
  else s

/-- The values taken by one loop counter running from `-m` while `< m`. -/
def coordRange (m : ℤ) : List ℤ :=
  (List.range (2 * m).toNat).map (fun (i : ℕ) => -m + (i : ℤ))

/-- The pixel coordinates enumerated by the nested loops of `paint`
(outer `cy` from `-yMax` to `yMax - 1`, inner `cx` from `-xMax` to
`xMax - 1`). -/
def pixelCoords (xMax yMax : ℤ) : List (ℤ × ℤ) :=
  (coordRange yMax).flatMap (fun cy => (coordRange xMax).map (fun cx => (cx, cy)))

/-- The primary ray direction built in `paint`:
`V = (cx * xScale + camera.x, cy * yScale + camera.y, zDistance)` and
`D = Vector3.difference(V, camera)`. -/
noncomputable def rayDirection (s : RenderState) (cx cy : ℤ) : Vec3 :=
  let V : Vec3 :=
    ⟨(cx : ℝ) * s.xScale + s.camera.x, (cy : ℝ) * s.yScale + s.camera.y, s.zDistance⟩
  Vec3.difference V s.camera

/-- `Number.MAX_SAFE_INTEGER`, the `tMax` of every primary ray. -/
def maxSafeInteger : ℝ := 9007199254740991

/-- `paint()` (`raytracing.js` lines 122-134): for every enumerated pixel
coordinate, build the primary ray, compute the color seen through the
viewport with `tMin = 1`, `tMax = Number.MAX_SAFE_INTEGER`, and write it with
`paintPixel`. -/
noncomputable def paint (s : RenderState) : RenderState :=
  (pixelCoords s.xMax s.yMax).foldl
    (fun st p =>
      paintPixel st p.1 p.2
        (computePixelColor st.camera st.shapes st.lights
          (rayDirection st p.1 p.2) 1 maxSafeInteger))
    s

/-- `update(deltaSeconds)` (`raytracing.js` lines 117-120): translate the
camera along x by `right - left` and along y by `up - down`, scaled by the
elapsed seconds. -/
def update (deltaSeconds : ℝ) (s : RenderState) : RenderState :=
  let dx := ((if s.actions.right then (1 : ℝ) else 0) +
             (if s.actions.left then (-1 : ℝ) else 0)) * deltaSeconds
  let dy := ((if s.actions.up then (1 : ℝ) else 0) +
             (if s.actions.down then (-1 : ℝ) else 0)) * deltaSeconds
  { s with camera := ⟨s.camera.x + dx, s.camera.y + dy, s.camera.z⟩ }

/-- `animate(timeStamp)` (`raytracing.js` lines 103-115): when every action
flag is false, clear the request id and return (no update, no paint, no
reschedule); otherwise reschedule, compute the delta from the previous
timestamp, record the new timestamp, update the camera and repaint. -/
noncomputable def animate (timeStamp : ℝ) (s : RenderState) : RenderState :=
  if allInactive s.actions then
    { s with animationRequestId := false }
  else
    let s1 := { s with animationRequestId := true }
    let dt := (timeStamp - s1.previousTimeStamp) / 1000
    let s2 := { s1 with previousTimeStamp := timeStamp }
    paint (update dt s2)

/-- `n` consecutive animation ticks, the `k`-th arriving at `ts k`. -/
noncomputable def tickN (ts : ℕ → ℝ) : ℕ → RenderState → RenderState
  | 0, s => s
  | n + 1, s => tickN ts n (animate (ts n) s)

/-- `setActions(a)` (`raytracing.js` lines 95-101): merge the partial action
map, then, whenever no callback is currently scheduled, record the current
timestamp and schedule one — with no check of the resulting flags.
`Diorama.setAction` behaves the same way on its single-key updates. -/
def setActions (p : ActionsPatch) (now : ℝ) (s : RenderState) : RenderState :=
  let s1 := { s with actions := applyPatch s.actions p }
  if s1.animationRequestId then s1
  else { s1 with previousTimeStamp := now, animationRequestId := true }

/-- `setScene(s)` (`raytracing.js` lines 76-93): overwrite the scene
reference with the delivered scene (the `Vector3` rehydration loops change
the representation, not the contents) and repaint. -/
noncomputable def setScene (shapes : List Sphere) (lights : List Light)
    (s : RenderState) : RenderState :=
  paint { s with shapes := shapes, lights := lights }

/-- `Diorama.loadScene(scene)`: for every parsed `Transform` push a sphere
onto `this.#scene.shapes`, and every parsed light onto `this.#scene.lights`,
without clearing either collection, then redraw.  The argument lists are the
spheres and lights delivered by this load, already parsed. -/
noncomputable def loadScene (newShapes : List Sphere) (newLights : List Light)
    (s : RenderState) : RenderState :=
  paint { s with shapes := s.shapes ++ newShapes, lights := s.lights ++ newLights }

/-- The viewport-related fields computed by `setCanvas` (`raytracing.js`
lines 47-74) from the canvas width and height: view-plane size from the
aspect ratio, per-axis scales `vWidth / width` and `vHeight / height`, and
`zDistance = 1`. -/
structure Viewport where
  vWidth : ℝ
  vHeight : ℝ
  xScale : ℝ
  yScale : ℝ
  zDistance : ℝ

/-- The viewport computation of `setCanvas`: `aspectRatio = width / height`;
landscape gets view-plane width 1 and height `1 / aspectRatio`, otherwise
width `aspectRatio` and height 1; scales divide by the pixel dimensions; the
view-plane distance is the constant 1. -/
noncomputable def setCanvasViewport (width height : ℝ) : Viewport :=
  let aspectRatio := width / height
  let vW := if aspectRatio > 1 then (1 : ℝ) else aspectRatio
  let vH := if aspectRatio > 1 then 1 / aspectRatio else (1 : ℝ)
  { vWidth := vW
    vHeight := vH
    xScale := vW / width
    yScale := vH / height
    zDistance := 1 }

/-- Every field of the render state except the draw buffer, used to state
that a render pass writes nothing else. -/
def observe (s : RenderState) :
    (ℤ × ℤ × ℝ × ℝ × ℤ × ℤ × ℝ × ℝ × ℝ) × Vec3 × List Sphere × List Light × Bool × ℝ × Actions :=
  ((s.width, s.height, s.vWidth, s.vHeight, s.xMax, s.yMax, s.xScale, s.yScale, s.zDistance),
    s.camera, s.shapes, s.lights, s.animationRequestId, s.previousTimeStamp, s.actions)

theorem foldl_proj {α β : Type _} (pr : RenderState → β)
    (f : RenderState → α → RenderState)
    (h : ∀ s a, pr (f s a) = pr s) :
    ∀ (l : List α) (s : RenderState), pr (l.foldl f s) = pr s := by
  intro l
  induction l with
  | nil => intro s; rfl
  | cons x t ih =>
      intro s
      rw [List.foldl_cons, ih, h]

theorem paintPixel_observe (s : RenderState) (cx cy : ℤ) (col : ℝ × ℝ × ℝ) :
    observe (paintPixel s cx cy col) = observe s := by
  unfold paintPixel
  dsimp only
  split <;> rfl

theorem paint_observe (s : RenderState) : observe (paint s) = observe s := by
  unfold paint
  exact foldl_proj observe
    (fun (st : RenderState) (p : ℤ × ℤ) =>
      paintPixel st p.1 p.2
        (computePixelColor st.camera st.shapes st.lights
          (rayDirection st p.1 p.2) 1 maxSafeInteger))
    (fun st p => paintPixel_observe st p.1 p.2 _) _ s

theorem paint_shapes (s : RenderState) : (paint s).shapes = s.shapes :=
  congrArg (fun o => o.2.2.1) (paint_observe s)

theorem paint_lights (s : RenderState) : (paint s).lights = s.lights :=
  congrArg (fun o => o.2.2.2.1) (paint_observe s)

theorem paint_camera (s : RenderState) : (paint s).camera = s.camera :=
  congrArg (fun o => o.2.1) (paint_observe s)

/-- Claim C10: a full render pass (`paint`) modifies only the framebuffer
bytes — the camera position, the scene collections, the action flags, the
animation bookkeeping and every viewport parameter are unchanged, so the
camera update and the render are fully decoupled.  `observe` projects every
`RenderState` field except `drawBuffer`. -/
theorem claim10_theorem (s : RenderState) : observe (paint s) = observe s :=
  paint_observe s

/-- Claim C8: with a scene containing no spheres, the color computed for any
ray — hence for every pixel of the framebuffer — is the background color
`(255, 255, 255)`, for every camera position, light collection and parameter
interval. -/
theorem claim8_theorem (camera : Vec3) (lights : List Light) (D : Vec3)
    (tMin tMax : ℝ) :
    computePixelColor camera [] lights D tMin tMax = (255, 255, 255) := rfl

/-- Claim C9: from any state whose directional action flags are all false,
any positive number of animation ticks leaves every field unchanged except
for clearing the scheduled-callback id: the camera is not mutated, no render
pass runs (the draw buffer is untouched) and no further tick is scheduled
(the driver is Idle). -/
theorem claim9_theorem (s : RenderState) (ts : ℕ → ℝ) (n : ℕ)
    (hIdle : allInactive s.actions = true) (hn : 0 < n) :
    tickN ts n s = { s with animationRequestId := false } ∧
    (tickN ts n s).camera = s.camera ∧
    (tickN ts n s).drawBuffer = s.drawBuffer ∧
    (tickN ts n s).animationRequestId = false := by
  have key : ∀ m (st : RenderState), allInactive st.actions = true → 0 < m →
      tickN ts m st = { st with animationRequestId := false } := by
    intro m
    induction m with
    | zero => intro st _ hm; exact absurd hm (by omega)
    | succ k ih =>
        intro st hst _
        have hA : animate (ts k) st = { st with animationRequestId := false } := by
          unfold animate
          rw [hst]
          simp
        show tickN ts k (animate (ts k) st) = { st with animationRequestId := false }
        rw [hA]
        cases k with
        | zero => rfl
        | succ j =>
            have := ih { st with animationRequestId := false } hst (by omega)
            simpa using this
  refine ⟨key n s hIdle hn, ?_, ?_, ?_⟩ <;> rw [key n s hIdle hn]

/-- A concrete idle renderer state used by the witnesses: 2×2 canvas, empty
scene, all action flags false, no callback scheduled. -/
def idleState : RenderState :=
  { width := 2
    height := 2
    vWidth := 1
    vHeight := 1
    xMax := 1
    yMax := 1
    xScale := 1
    yScale := 1
    zDistance := 1
    camera := ⟨0, 0, 0⟩
    shapes := []
    lights := []
    animationRequestId := false
    previousTimeStamp := 0
    actions := ⟨false, false, false, false⟩
    drawBuffer := fun _ => 0 }

/-- Witness for claim C9 at the concrete idle state and a single tick. -/
theorem claim9_witness :
    allInactive idleState.actions = true ∧ 0 < 1 ∧
    (tickN (fun _ => 0) 1 idleState = { idleState with animationRequestId := false } ∧
     (tickN (fun _ => 0) 1 idleState).camera = idleState.camera ∧
     (tickN (fun _ => 0) 1 idleState).drawBuffer = idleState.drawBuffer ∧
     (tickN (fun _ => 0) 1 idleState).animationRequestId = false) :=
  ⟨rfl, Nat.one_pos, claim9_theorem idleState (fun _ => 0) 1 rfl Nat.one_pos⟩

/-- A toggle that releases `up` and touches nothing else: after merging onto
an all-false action map, every directional flag is still inactive. -/
def patchUpOff : ActionsPatch := ⟨some false, none, none, none⟩

/-- Claim C5 counterexample: from the Idle state, the toggle `{up: false}`
leaves all four directional flags inactive, yet `setActions` still schedules
an animation callback — refuting that a tick is scheduled exactly when at
least one direction is active. -/
theorem claim5_counterexample :
    allInactive ((setActions patchUpOff 0 idleState).actions) = true ∧
    (setActions patchUpOff 0 idleState).animationRequestId = true :=
  ⟨rfl, rfl⟩

/-- Claim C5 (amended): from the Idle state (no callback scheduled), every
input-action toggle schedules a per-frame callback and records the current
timestamp as the delta baseline, whether or not any directional flag is
active after the merge; a tick with no active direction then immediately
returns to Idle. -/
theorem claim5_theorem (p : ActionsPatch) (now : ℝ) (s : RenderState)
    (hIdle : s.animationRequestId = false) :
    (setActions p now s).animationRequestId = true ∧
    (setActions p now s).previousTimeStamp = now ∧
    (setActions p now s).actions = applyPatch s.actions p := by
  unfold setActions
  simp [hIdle]

/-- A toggle that presses `up`. -/
def patchUpOn : ActionsPatch := ⟨some true, none, none, none⟩

/-- Witness for claim C5 at the concrete idle state. -/
theorem claim5_witness :
    idleState.animationRequestId = false ∧
    ((setActions patchUpOn 5 idleState).animationRequestId = true ∧
     (setActions patchUpOn 5 idleState).previousTimeStamp = 5 ∧
     (setActions patchUpOn 5 idleState).actions = applyPatch idleState.actions patchUpOn) :=
  ⟨rfl, claim5_theorem patchUpOn 5 idleState rfl⟩

/-- A first concrete sphere for the scene-load counterexample. -/
def sphereA : Sphere := ⟨⟨0, 0, 3⟩, 1, (200, 0, 0)⟩

/-- A second concrete sphere for the scene-load counterexample. -/
def sphereB : Sphere := ⟨⟨5, 0, 3⟩, 1, (0, 200, 0)⟩

/-- Claim C7 counterexample: after loading `[sphereA]` and then `[sphereB]`
through `Diorama.loadScene`, the scene is not `[sphereB]` — the second load
did not replace the first one wholesale (it appended, so the scene holds two
spheres). -/
theorem claim7_counterexample :
    (loadScene [sphereB] [] (loadScene [sphereA] [] idleState)).shapes ≠ [sphereB] := by
  have h : (loadScene [sphereB] [] (loadScene [sphereA] [] idleState)).shapes
      = [sphereA, sphereB] := by
    simp [loadScene, paint_shapes, idleState]
  rw [h]
  intro hEq
  have := congrArg List.length hEq
  simp at this

/-- Claim C7 (amended): the worker renderer's `setScene` does replace the
scene wholesale — after a second load its spheres and lights are exactly the
newly delivered ones — but `Diorama.loadScene` appends: after a second load
its scene is the previous contents followed by the first and then the second
delivery. -/
theorem claim7_theorem (s : RenderState) (n1s n2s : List Sphere)
    (n1l n2l : List Light) :
    (setScene n2s n2l (setScene n1s n1l s)).shapes = n2s ∧
    (setScene n2s n2l (setScene n1s n1l s)).lights = n2l ∧
    (loadScene n2s n2l (loadScene n1s n1l s)).shapes = s.shapes ++ n1s ++ n2s ∧
    (loadScene n2s n2l (loadScene n1s n1l s)).lights = s.lights ++ n1l ++ n2l := by
  refine ⟨?_, ?_, ?_, ?_⟩ <;>
    simp [setScene, loadScene, paint_shapes, paint_lights]

theorem foldl_add_sum {α : Type _} (f : α → ℝ) :
    ∀ (l : List α) (a : ℝ),
      l.foldl (fun acc x => acc + f x) a = a + (l.map f).sum := by
  intro l
  induction l with
  | nil => intro a; simp
  | cons x t ih =>
      intro a
      rw [List.foldl_cons, ih, List.map_cons, List.sum_cons]
      ring

/-- The spec wording of the shader term without any specular part: ambient
lights add their intensity; directional and point lights derive the light
vector `L` and add `intensity * max(0, dot(N, L) / (|N| * |L|))` — the
diffuse term only. -/
noncomputable def specAmbientDiffuseTerm (P N : Vec3) : Light → ℝ
  | .ambient i => i
  | .directional i dir =>
      i * max 0 (Vec3.dot N dir / (Vec3.norm N * Vec3.norm dir))
  | .point i pos =>
      let L := Vec3.difference pos P
      i * max 0 (Vec3.dot N L / (Vec3.norm N * Vec3.norm L))

/-- The reflection vector of the claim: `R = 2 * dot(N, L) * N - L`. -/
noncomputable def reflectVec (N L : Vec3) : Vec3 :=
  ⟨2 * Vec3.dot N L * N.x - L.x,
   2 * Vec3.dot N L * N.y - L.y,
   2 * Vec3.dot N L * N.z - L.z⟩

/-- The claimed shader term including the specular part, written from the
spec: for directional and point lights, with view vector `V` and specular
exponent `e`, add `intensity * (id + is)` where
`is = max(0, dot(R, V) / (|R| * |V|)) ^ e`. -/
noncomputable def claimShadeTerm (V : Vec3) (specExp : ℕ) (P N : Vec3) : Light → ℝ
  | .ambient i => i
  | .directional i dir =>
      let idTerm := max 0 (Vec3.dot N dir / (Vec3.norm N * Vec3.norm dir))
      let R := reflectVec N dir
      let isTerm := max 0 (Vec3.dot R V / (Vec3.norm R * Vec3.norm V)) ^ specExp
      i * (idTerm + isTerm)
  | .point i pos =>
      let L := Vec3.difference pos P
      let idTerm := max 0 (Vec3.dot N L / (Vec3.norm N * Vec3.norm L))
      let R := reflectVec N L
      let isTerm := max 0 (Vec3.dot R V / (Vec3.norm R * Vec3.norm V)) ^ specExp
      i * (idTerm + isTerm)

/-- The claimed pixel intensity: the sum of `claimShadeTerm` over the
lights. -/
noncomputable def claimShade (V : Vec3) (specExp : ℕ) (lights : List Light)
    (P N : Vec3) : ℝ :=
  (lights.map (claimShadeTerm V specExp P N)).sum

/-- The origin, used as a concrete hit point. -/
def originP : Vec3 := ⟨0, 0, 0⟩

/-- The positive z unit vector, used as a concrete normal, light vector and
view vector. -/
def unitZ : Vec3 := ⟨0, 0, 1⟩

/-- A concrete directional light of intensity 1 pointing along `+z`. -/
def lightZ : Light := Light.directional 1 unitZ

theorem norm_unitZ : Vec3.norm unitZ = 1 := by
  unfold Vec3.norm Vec3.dot unitZ
  norm_num

theorem dot_unitZ : Vec3.dot unitZ unitZ = 1 := by
  unfold Vec3.dot unitZ
  norm_num

/-- Claim C2 counterexample: at the hit point `(0,0,0)` with unit normal
`(0,0,1)`, one directional light of intensity 1 along `(0,0,1)` and view
vector `(0,0,1)`, the shader computes intensity 1 (diffuse only) while the
claimed formula with the specular term computes `1 * (1 + 1) = 2` (for
specular exponent 1, and indeed for any exponent): the computed intensity
does not include the specular contribution. -/
theorem claim2_counterexample :
    computePixelIntensity [lightZ] originP unitZ ≠
      claimShade unitZ 1 [lightZ] originP unitZ := by
  have hrefl : reflectVec unitZ unitZ = unitZ := by
    unfold reflectVec unitZ Vec3.dot
    norm_num
  have hL : computePixelIntensity [lightZ] originP unitZ = 1 := by
    simp only [computePixelIntensity, lightZ, List.foldl_cons, List.foldl_nil,
      lightContrib, norm_unitZ, dot_unitZ]
    norm_num
  have hR : claimShade unitZ 1 [lightZ] originP unitZ = 2 := by
    simp only [claimShade, lightZ, List.map_cons, List.map_nil, List.sum_cons,
      List.sum_nil, claimShadeTerm, hrefl, norm_unitZ, dot_unitZ]
    norm_num
  rw [hL, hR]
  norm_num

/-- Claim C2 (amended): the computed pixel intensity is exactly the sum, over
the lights, of the ambient and diffuse terms of the spec — there is no
specular contribution (the shader does not even receive the view vector or a
specular exponent). -/
theorem claim2_theorem (lights : List Light) (P N : Vec3) :
    computePixelIntensity lights P N =
      (lights.map (specAmbientDiffuseTerm P N)).sum := by
  have hfun : lightContrib P N = specAmbientDiffuseTerm P N := by
    funext l
    cases l <;> rfl
  rw [computePixelIntensity, foldl_add_sum, hfun, zero_add]

theorem lightContrib_nonneg (P N : Vec3) (l : Light)
    (h : 0 ≤ lightIntensity l) : 0 ≤ lightContrib P N l := by
  cases l with
  | ambient i => exact h
  | directional i dir =>
      exact mul_nonneg h (le_max_left 0 _)
  | point i pos =>
      exact mul_nonneg h (le_max_left 0 _)

theorem computePixelIntensity_nonneg (lights : List Light) (P N : Vec3)
    (h : ∀ l ∈ lights, 0 ≤ lightIntensity l) :
    0 ≤ computePixelIntensity lights P N := by
  rw [computePixelIntensity, foldl_add_sum, zero_add]
  apply List.sum_nonneg
  intro x hx
  obtain ⟨l, hl, rfl⟩ := List.mem_map.mp hx
  exact lightContrib_nonneg P N l (h l hl)

/-- Claim C3 counterexample: a single ambient light of (non-negative)
intensity 2 makes the shader return the multiplier 2, which is not at most 1
— the shader result is not clamped, and applied to a base channel of 100 it
yields an output channel of 200, exceeding the base. -/
theorem claim3_counterexample :
    (∀ l ∈ [Light.ambient 2], 0 ≤ lightIntensity l) ∧
    ¬ computePixelIntensity [Light.ambient 2] originP unitZ ≤ 1 ∧
    ¬ (100 : ℝ) * computePixelIntensity [Light.ambient 2] originP unitZ ≤ 100 := by
  have hv : computePixelIntensity [Light.ambient 2] originP unitZ = 2 := by
    simp [computePixelIntensity, lightContrib]
  refine ⟨?_, ?_, ?_⟩
  · intro l hl
    rcases List.mem_singleton.mp hl with rfl
    norm_num [lightIntensity]
  · rw [hv]; norm_num
  · rw [hv]; norm_num

/-- Claim C3 (amended): the shader applies no clamp — it returns the raw sum
of the light contributions.  That sum is non-negative whenever the light
intensities are, and an output channel is bounded by its base value exactly
under the extra hypothesis that the computed multiplier is at most 1 (which
the code does not enforce). -/
theorem claim3_theorem (lights : List Light) (P N : Vec3)
    (hpos : ∀ l ∈ lights, 0 ≤ lightIntensity l) (b : ℝ) (hb : 0 ≤ b)
    (hle : computePixelIntensity lights P N ≤ 1) :
    0 ≤ computePixelIntensity lights P N ∧
    b * computePixelIntensity lights P N ≤ b := by
  refine ⟨computePixelIntensity_nonneg lights P N hpos, ?_⟩
  exact mul_le_of_le_one_right hb hle

/-- Witness for claim C3: one ambient light of intensity 1, base channel
200. -/
theorem claim3_witness :
    (∀ l ∈ [Light.ambient 1], 0 ≤ lightIntensity l) ∧ (0 : ℝ) ≤ 200 ∧
    computePixelIntensity [Light.ambient 1] originP unitZ ≤ 1 ∧
    (0 ≤ computePixelIntensity [Light.ambient 1] originP unitZ ∧
     (200 : ℝ) * computePixelIntensity [Light.ambient 1] originP unitZ ≤ 200) := by
  have h1 : ∀ l ∈ [Light.ambient 1], 0 ≤ lightIntensity l := by
    intro l hl
    rcases List.mem_singleton.mp hl with rfl
    norm_num [lightIntensity]
  have h2 : computePixelIntensity [Light.ambient 1] originP unitZ ≤ 1 := by
    simp [computePixelIntensity, lightContrib]
  exact ⟨h1, by norm_num, h2,
    claim3_theorem [Light.ambient 1] originP unitZ h1 200 (by norm_num) h2⟩

/-- Claim C4 counterexample: for a 100×100 canvas the code sets the
view-plane distance to 1, but the claimed value
`max(aspect, 1/aspect) * tan(fov/2)` with `fov = 53` degrees is
`tan(53π/360) < tan(π/4) = 1`, so the two disagree (the code contains no
`tan` factor at all). -/
theorem claim4_counterexample :
    (setCanvasViewport 100 100).zDistance ≠
      max ((100 : ℝ) / 100) (1 / ((100 : ℝ) / 100)) *
        Real.tan (53 * Real.pi / 360) := by
  have hz : (setCanvasViewport 100 100).zDistance = 1 := rfl
  have htan : Real.tan (53 * Real.pi / 360) < 1 := by
    have hpi := Real.pi_pos
    have h0 : (0 : ℝ) ≤ 53 * Real.pi / 360 := by positivity
    have hy : Real.pi / 4 < Real.pi / 2 := by linarith
    have hxy : 53 * Real.pi / 360 < Real.pi / 4 := by linarith
    calc Real.tan (53 * Real.pi / 360)
        < Real.tan (Real.pi / 4) :=
          Real.tan_lt_tan_of_nonneg_of_lt_pi_div_two h0 hy hxy
      _ = 1 := Real.tan_pi_div_four
  rw [hz]
  have hmax : max ((100 : ℝ) / 100) (1 / ((100 : ℝ) / 100)) = 1 := by norm_num
  rw [hmax, one_mul]
  intro h
  rw [← h] at htan
  exact lt_irrefl 1 htan

/-- Claim C4 (amended): the viewport mapper sets the per-axis scale to
`viewDimension / pixelDimension` with no `tan` factor and the view-plane
distance to the constant 1; since the major view-plane dimension is always
1, the effective half field of view has tangent
`(majorViewDimension / 2) / zDistance = 1 / 2`, i.e. the effective fov is
`2 * arctan(1/2) ≈ 53.13°` — not a configured 53° applied through
`tan(fov/2)`. -/
theorem claim4_theorem (w h : ℝ) (hw : 0 < w) (hh : 0 < h) :
    (setCanvasViewport w h).xScale = (setCanvasViewport w h).vWidth / w ∧
    (setCanvasViewport w h).yScale = (setCanvasViewport w h).vHeight / h ∧
    (setCanvasViewport w h).zDistance = 1 ∧
    max (setCanvasViewport w h).vWidth (setCanvasViewport w h).vHeight = 1 ∧
    max (setCanvasViewport w h).vWidth (setCanvasViewport w h).vHeight /
      (2 * (setCanvasViewport w h).zDistance) = 1 / 2 := by
  have hmax : max (setCanvasViewport w h).vWidth (setCanvasViewport w h).vHeight = 1 := by
    unfold setCanvasViewport
    dsimp only
    by_cases hA : w / h > 1
    · rw [if_pos hA, if_pos hA]
      have hle : 1 / (w / h) ≤ 1 := by
        rw [div_le_one (by linarith)]
        linarith
      exact max_eq_left hle
    · rw [if_neg hA, if_neg hA]
      have hle : w / h ≤ 1 := le_of_not_lt hA
      exact max_eq_right hle
  refine ⟨rfl, rfl, rfl, hmax, ?_⟩
  have hz : (setCanvasViewport w h).zDistance = 1 := rfl
  rw [hmax, hz]
  norm_num

/-- Witness for claim C4 at a 100×100 canvas. -/
theorem claim4_witness :
    (0 : ℝ) < 100 ∧
    ((setCanvasViewport 100 100).xScale = (setCanvasViewport 100 100).vWidth / 100 ∧
     (setCanvasViewport 100 100).yScale = (setCanvasViewport 100 100).vHeight / 100 ∧
     (setCanvasViewport 100 100).zDistance = 1 ∧
     max (setCanvasViewport 100 100).vWidth (setCanvasViewport 100 100).vHeight = 1 ∧
     max (setCanvasViewport 100 100).vWidth (setCanvasViewport 100 100).vHeight /
       (2 * (setCanvasViewport 100 100).zDistance) = 1 / 2) :=
  ⟨by norm_num, claim4_theorem 100 100 (by norm_num) (by norm_num)⟩

theorem mem_coordRange {m a : ℤ} : a ∈ coordRange m ↔ -m ≤ a ∧ a < m := by
  unfold coordRange
  rw [List.mem_map]
  constructor
  · rintro ⟨i, hi, rfl⟩
    rw [List.mem_range] at hi
    omega
  · rintro ⟨h1, h2⟩
    refine ⟨(a + m).toNat, ?_, ?_⟩
    · rw [List.mem_range]
      omega
    · omega

theorem mem_pixelCoords {xMax yMax cx cy : ℤ} :
    (cx, cy) ∈ pixelCoords xMax yMax ↔
      (-xMax ≤ cx ∧ cx < xMax) ∧ (-yMax ≤ cy ∧ cy < yMax) := by
  unfold pixelCoords
  simp only [List.mem_flatMap, List.mem_map, Prod.mk.injEq, mem_coordRange]
  constructor
  · rintro ⟨b, hb, a, ha, rfl, rfl⟩
    exact ⟨ha, hb⟩
  · rintro ⟨ha, hb⟩
    exact ⟨cy, hb, cx, ha, rfl, rfl⟩

/-- Claim C6 counterexample: on a 2×2 framebuffer (`xMax = yMax = 1`) the
render pass enumerates the pixel coordinate `(0, -1)`, which the writer maps
to `(x, y) = (1, 2)`; `y = 2` fails the `y < height` bound, so the defensive
bounds check does suppress a write during the ordinary enumeration. -/
theorem claim6_counterexample :
    ((0, -1) : ℤ × ℤ) ∈ pixelCoords 1 1 ∧
    ¬ inBounds 2 2 (mapToGrid 1 1 0 (-1)) := by
  constructor
  · decide
  · decide

/-- Claim C6 (amended): for every coordinate `(cx, cy)` enumerated by a
render pass over an even `width = 2 * xMax`, `height = 2 * yMax`
framebuffer, the mapped coordinate `(xMax + cx, yMax - cy)` lies inside
`[0, width) × [0, height)` exactly when `cy ≠ -yMax`: the x coordinate is
always in range, but the row `cy = -yMax` maps to `y = height` and its
writes are suppressed by the bounds check. -/
theorem claim6_theorem (xMax yMax cx cy : ℤ)
    (hmem : (cx, cy) ∈ pixelCoords xMax yMax) :
    inBounds (2 * xMax) (2 * yMax) (mapToGrid xMax yMax cx cy) ↔ cy ≠ -yMax := by
  rw [mem_pixelCoords] at hmem
  unfold inBounds mapToGrid
  dsimp only
  omega

/-- Witness for claim C6 at the in-range pixel `(0, 0)` of a 2×2
framebuffer. -/
theorem claim6_witness :
    (((0, 0) : ℤ × ℤ) ∈ pixelCoords 1 1) ∧
    (inBounds 2 2 (mapToGrid 1 1 0 0) ↔ (0 : ℤ) ≠ -1) :=
  ⟨by decide, claim6_theorem 1 1 0 0 (by decide)⟩

/-- A sphere of radius 2 centered at the origin: the camera at the origin
lies strictly inside it. -/
def sphereAround : Sphere := ⟨⟨0, 0, 0⟩, 2, (200, 0, 0)⟩

theorem intersect_inside_eval :
    intersectClosest originP unitZ 1 maxSafeInteger [sphereAround] =
      some (-2, sphereAround) := by
  have hsqrt : Real.sqrt 16 = 4 := by
    rw [show (16 : ℝ) = 4 ^ 2 by norm_num]
    exact Real.sqrt_sq (by norm_num)
  unfold intersectClosest
  rw [List.foldl_cons, List.foldl_nil]
  unfold scanSphere
  norm_num [Vec3.difference, Vec3.dot, originP, unitZ, sphereAround,
    maxSafeInteger, hsqrt, min_def]

/-- Claim C1, evaluated at the failing input: the camera at the origin lies
strictly inside the sphere of radius 2 centered at the origin; for the ray
direction `(0, 0, 1)` with `tMin = 1`, `tMax = Number.MAX_SAFE_INTEGER` the
roots are `2` and `-2`; because `2` lies in the interval the code accepts
the sphere but records `t = min(2, -2) = -2`, a root strictly outside
`(tMin, tMax)`, and reports it as a hit: `computePixelColor` shades the
point behind the camera instead of returning the background (with no lights
it returns `(0, 0, 0)`), refuting that a reported hit parameter always lies
strictly inside `(tMin, tMax)`. -/
theorem claim1_code_eval :
    Vec3.norm (Vec3.difference originP sphereAround.center) < sphereAround.radius ∧
    intersectClosest originP unitZ 1 maxSafeInteger [sphereAround] =
      some (-2, sphereAround) ∧
    ¬ (1 < (-2 : ℝ) ∧ (-2 : ℝ) < maxSafeInteger) ∧
    computePixelColor originP [sphereAround] [] unitZ 1 maxSafeInteger ≠
      (255, 255, 255) := by
  refine ⟨?_, intersect_inside_eval, by norm_num, ?_⟩
  · have hdiff : Vec3.difference originP sphereAround.center = ⟨0, 0, 0⟩ := by
      unfold Vec3.difference originP sphereAround
      norm_num
    rw [hdiff]
    have hnorm : Vec3.norm ⟨0, 0, 0⟩ = 0 := by
      unfold Vec3.norm Vec3.dot
      norm_num
    rw [hnorm]
    show (0 : ℝ) < sphereAround.radius
    norm_num [sphereAround]
  · unfold computePixelColor
    rw [intersect_inside_eval]
    have hi : ∀ P N : Vec3, computePixelIntensity [] P N = 0 := fun _ _ => rfl
    norm_num [hi, sphereAround, Prod.ext_iff]
